import Mathlib

/-!
Shallow embedding of the order-execution engine.

Source files embedded here:
 - `src/utils/helpers.ts` (applyPriceVariance, generateMockTxHash)
 - `src/services/dex-router.ts` (MockDexRouter: getBasePrice, getRaydiumQuote,
   getMeteorQuote, getBestQuote, executeSwap)
 - `src/models/order.ts` (OrderModel: getById, updateStatus)
 - `src/routes/orders.ts` (validateOrderRequest, executeOrder)
 - `src/queues/order-queue.ts` (processOrder and the queue retry policy)

Modelling conventions: JavaScript numbers are modelled as `ℚ` (all arithmetic in
the program is field arithmetic on ordinary magnitudes); every `Math.random()`
draw is an explicit parameter `r` with `0 ≤ r < 1`; wall-clock timestamps are
explicit `ℕ` parameters; the Postgres table and the Redis cache are association
lists keyed by the order id; a thrown exception is `Except.error`.
-/

inductive Dex where
  | raydium
  | meteora
deriving DecidableEq, Repr

inductive OrderStatus where
  | pending
  | routing
  | building
  | submitted
  | confirmed
  | failed
deriving DecidableEq, Repr

/-- A venue quote (`DexQuote` in `src/types/index.ts`); the wall-clock
`timestamp` field is not modelled. -/
structure DexQuote where
  dex : Dex
  price : ℚ
  fee : ℚ
  estimatedOutput : ℚ
deriving DecidableEq, Repr

/-- The persisted order record (`Order` in `src/models/order.ts`). -/
structure Order where
  id : String
  tokenIn : String
  tokenOut : String
  amount : ℚ
  slippage : ℚ
  status : OrderStatus
  selectedDex : Option Dex := none
  raydiumQuote : Option DexQuote := none
  meteoraQuote : Option DexQuote := none
  executedPrice : Option ℚ := none
  amountOut : Option ℚ := none
  txHash : Option String := none
  errorMessage : Option String := none
  retryCount : ℕ := 0
  createdAt : ℕ := 0
  updatedAt : ℕ := 0
deriving DecidableEq, Repr

/-- `applyPriceVariance` from `src/utils/helpers.ts`: the `Math.random()` draw
is the explicit parameter `r`. -/
def applyPriceVariance (basePrice minVariance maxVariance r : ℚ) : ℚ :=
  basePrice * (minVariance + r * (maxVariance - minVariance))

/-- The character table `0123456789abcdef` that `generateMockTxHash` indexes. -/
def hexChars : List Char :=
  (List.range 16).map (fun n => if n < 10 then Char.ofNat (48 + n) else Char.ofNat (87 + n))

/-- `generateMockTxHash` from `src/utils/helpers.ts`: the 64 random hex-digit
draws are the explicit parameter list. -/
def generateMockTxHash (draws : List (Fin 16)) : String :=
  String.mk (draws.map (fun d => hexChars.getD d.val '0'))

/-- `MockDexRouter.getBasePrice`: the `basePrices` record lookup with fallback
`1.0` for unknown pairs. -/
def getBasePrice (tokenIn tokenOut : String) : ℚ :=
  let pair := tokenIn ++ "-" ++ tokenOut
  if pair = "SOL-USDC" then 100
  else if pair = "SOL-USDT" then 100
  else if pair = "USDC-SOL" then 1/100
  else if pair = "USDT-SOL" then 1/100
  else if pair = "SOL-RAY" then 20
  else if pair = "RAY-SOL" then 1/20
  else 1

/-- `MockDexRouter.getRaydiumQuote`: variance range 0.98–1.04, fee 0.3%. -/
def getRaydiumQuote (tokenIn tokenOut : String) (amount r : ℚ) : DexQuote :=
  let basePrice := getBasePrice tokenIn tokenOut
  let price := applyPriceVariance basePrice (98/100) (104/100) r
  let fee : ℚ := 3/1000
  let estimatedOutput := amount * price * (1 - fee)
  { dex := Dex.raydium, price := price, fee := fee, estimatedOutput := estimatedOutput }

/-- `MockDexRouter.getMeteorQuote`: variance range 0.97–1.05, fee 0.2%. -/
def getMeteorQuote (tokenIn tokenOut : String) (amount r : ℚ) : DexQuote :=
  let basePrice := getBasePrice tokenIn tokenOut
  let price := applyPriceVariance basePrice (97/100) (105/100) r
  let fee : ℚ := 2/1000
  let estimatedOutput := amount * price * (1 - fee)
  { dex := Dex.meteora, price := price, fee := fee, estimatedOutput := estimatedOutput }

structure BestQuoteResult where
  raydiumQuote : DexQuote
  meteoraQuote : DexQuote
  bestQuote : DexQuote
  priceImprovement : ℚ
deriving DecidableEq, Repr

/-- `MockDexRouter.getBestQuote`: fetches both venue quotes (their random draws
are `rRay`, `rMet`), keeps the one with strictly greater `estimatedOutput`
(Meteora on a tie), and computes the price-improvement percentage against the
worse output. -/
def getBestQuote (tokenIn tokenOut : String) (amount rRay rMet : ℚ) : BestQuoteResult :=
  let raydiumQuote := getRaydiumQuote tokenIn tokenOut amount rRay
  let meteoraQuote := getMeteorQuote tokenIn tokenOut amount rMet
  let bestQuote :=
    if raydiumQuote.estimatedOutput > meteoraQuote.estimatedOutput then raydiumQuote
    else meteoraQuote
  let worseOutput := min raydiumQuote.estimatedOutput meteoraQuote.estimatedOutput
  let priceImprovement := (bestQuote.estimatedOutput - worseOutput) / worseOutput * 100
  { raydiumQuote := raydiumQuote, meteoraQuote := meteoraQuote,
    bestQuote := bestQuote, priceImprovement := priceImprovement }

/-- `OrderDetails` from `src/types/index.ts`. -/
structure OrderDetails where
  orderId : String
  tokenIn : String
  tokenOut : String
  amount : ℚ
  slippage : ℚ
deriving DecidableEq, Repr

/-- `SwapResult` from `src/types/index.ts`; the wall-clock `timestamp` field is
not modelled. -/
structure SwapResult where
  txHash : String
  executedPrice : ℚ
  amountIn : ℚ
  amountOut : ℚ
  dex : Dex
deriving DecidableEq, Repr

/-- `MockDexRouter.executeSwap`: the `Math.random()` slippage draw is `r`, the
tx-hash draws are `txDraws`; the simulated delays have no observable effect. -/
def executeSwap (order : OrderDetails) (selectedDex : Dex) (r : ℚ)
    (txDraws : List (Fin 16)) : SwapResult :=
  let basePrice := getBasePrice order.tokenIn order.tokenOut
  let slippageVariance := 1 - r * order.slippage
  let executedPrice := basePrice * slippageVariance
  let fee : ℚ := if selectedDex = Dex.raydium then 3/1000 else 2/1000
  let amountOut := order.amount * executedPrice * (1 - fee)
  { txHash := generateMockTxHash txDraws, executedPrice := executedPrice,
    amountIn := order.amount, amountOut := amountOut, dex := selectedDex }

/-! ### Order store (`src/models/order.ts`)

The Postgres `orders` table and the Redis cache are association lists keyed by
the order id; `List.lookup` returns the first binding, cache population conses
a fresh binding, and `redis.del` removes every binding for the key. The cache
stores `JSON.stringify(order)` in the source; serialization round-trips, so the
model caches the `Order` value itself. TTLs have no observable effect here. -/

def isHexDigit (c : Char) : Bool :=
  (48 ≤ c.toNat && c.toNat ≤ 57) ||
  (97 ≤ c.toNat && c.toNat ≤ 102) ||
  (65 ≤ c.toNat && c.toNat ≤ 70)

/-- Split a character list on every dash, keeping empty groups. -/
def splitDash : List Char → List (List Char)
  | [] => [[]]
  | c :: rest =>
    if c = '-' then [] :: splitDash rest
    else
      match splitDash rest with
      | [] => [[c]]
      | g :: gs => (c :: g) :: gs

/-- The UUID shape test from `OrderModel.getById`: the regex
`^[0-9a-fA-F]{8}-[0-9a-fA-F]{4}-[0-9a-fA-F]{4}-[0-9a-fA-F]{4}-[0-9a-fA-F]{12}$`,
expressed as "exactly five dash-separated groups of lengths 8-4-4-4-12, all hex
digits" (equivalent: the groups reassemble the string and contain no dash). -/
def isUuid (s : String) : Bool :=
  match splitDash s.toList with
  | [a, b, c, d, e] =>
    a.length == 8 && b.length == 4 && c.length == 4 && d.length == 4 && e.length == 12 &&
    a.all isHexDigit && b.all isHexDigit && c.all isHexDigit && d.all isHexDigit &&
    e.all isHexDigit
  | _ => false

/-- Combined durable-storage and cache state owned by the order store. -/
structure StoreState where
  db : List (String × Order)
  cache : List (String × Order)
deriving DecidableEq, Repr

/-- Observable outcome of `OrderModel.getById`: the returned value, the cache
after the call, and whether durable storage was queried. -/
structure GetByIdResult where
  result : Option Order
  cache : List (String × Order)
  dbQueried : Bool
deriving DecidableEq, Repr

/-- `OrderModel.getById`: cache-aside read — cache first; on a hit return the
parsed cached value at once; on a miss reject non-UUID ids without touching the
database, otherwise query the database and repopulate the cache on success. -/
def getById (id : String) (db cache : List (String × Order)) : GetByIdResult :=
  match cache.lookup id with
  | some cached => { result := some cached, cache := cache, dbQueried := false }
  | none =>
    if isUuid id then
      match db.lookup id with
      | none => { result := none, cache := cache, dbQueried := true }
      | some order =>
        { result := some order, cache := (id, order) :: cache, dbQueried := true }
    else
      { result := none, cache := cache, dbQueried := false }

/-- The `additionalData?: Partial<Order>` payload of `OrderModel.updateStatus`:
`none` models an absent (`undefined`) field. -/
structure UpdatePatch where
  selectedDex : Option Dex := none
  raydiumQuote : Option DexQuote := none
  meteoraQuote : Option DexQuote := none
  executedPrice : Option ℚ := none
  amountOut : Option ℚ := none
  txHash : Option String := none
  errorMessage : Option String := none
  retryCount : Option ℕ := none
deriving DecidableEq, Repr

/-- The row update assembled by `OrderModel.updateStatus`: `status` and
`updated_at` are always written; `selected_dex`, `raydium_quote` and
`meteora_quote` only when truthy (present); `tx_hash` and `error_message` only
when truthy (present and non-empty, since the empty string is falsy in JS);
`executed_price`, `amount_out` and `retry_count` whenever not `undefined`. -/
def applyPatch (o : Order) (status : OrderStatus) (patch : UpdatePatch) (now : ℕ) : Order :=
  { o with
    status := status
    updatedAt := now
    selectedDex :=
      match patch.selectedDex with
      | some d => some d
      | none => o.selectedDex
    raydiumQuote :=
      match patch.raydiumQuote with
      | some q => some q
      | none => o.raydiumQuote
    meteoraQuote :=
      match patch.meteoraQuote with
      | some q => some q
      | none => o.meteoraQuote
    executedPrice :=
      match patch.executedPrice with
      | some x => some x
      | none => o.executedPrice
    amountOut :=
      match patch.amountOut with
      | some x => some x
      | none => o.amountOut
    txHash :=
      match patch.txHash with
      | some h => if h = "" then o.txHash else some h
      | none => o.txHash
    errorMessage :=
      match patch.errorMessage with
      | some m => if m = "" then o.errorMessage else some m
      | none => o.errorMessage
    retryCount :=
      match patch.retryCount with
      | some n => n
      | none => o.retryCount }

/-- `OrderModel.updateStatus`: runs the `UPDATE … WHERE id = $1` (rewriting the
matching rows, leaving every other row untouched) and then deletes the cache
entry for the id (`redis.del`). -/
def updateStatus (id : String) (status : OrderStatus) (patch : UpdatePatch)
    (st : StoreState) (now : ℕ) : StoreState :=
  { db := st.db.map (fun kv => if kv.1 = id then (kv.1, applyPatch kv.2 status patch now) else kv)
    cache := st.cache.filter (fun kv => kv.1 ≠ id) }

/-- `OrderModel.create`: inserts a fresh `pending` row with `retry_count = 0`
(the `randomUUID()` draw is the explicit `id` parameter) and caches it. -/
def create (id tokenIn tokenOut : String) (amount slippage : ℚ)
    (st : StoreState) (now : ℕ) : Order × StoreState :=
  let order : Order :=
    { id := id, tokenIn := tokenIn, tokenOut := tokenOut, amount := amount,
      slippage := slippage, status := OrderStatus.pending, retryCount := 0,
      createdAt := now, updatedAt := now }
  (order, { db := (id, order) :: st.db, cache := (id, order) :: st.cache })

/-! ### Submission path (`src/routes/orders.ts`) -/

/-- The request body of `POST /api/orders/execute`; `none` models a field that
is absent or not of the expected JS type (`typeof` check in the validator). -/
structure OrderSubmitBody where
  tokenIn : Option String := none
  tokenOut : Option String := none
  amount : Option ℚ := none
  slippage : Option ℚ := none
deriving DecidableEq, Repr

structure ValidationResult where
  valid : Bool
  error : Option String := none
deriving DecidableEq, Repr

/-- `validateOrderRequest`: the five checks in source order. `!body.tokenIn`
also rejects the empty string (falsy); `!body.amount` is subsumed by the
`amount <= 0` check in a NaN-free model; the slippage check is
`slippage < 0 || slippage > 1`, so `slippage = 1` passes. -/
def validateOrderRequest (body : OrderSubmitBody) : ValidationResult :=
  if body.tokenIn = none ∨ body.tokenIn = some "" then
    { valid := false, error := some "tokenIn is required and must be a string" }
  else if body.tokenOut = none ∨ body.tokenOut = some "" then
    { valid := false, error := some "tokenOut is required and must be a string" }
  else if (match body.amount with | none => true | some a => a ≤ 0) then
    { valid := false, error := some "amount is required and must be a positive number" }
  else if (match body.slippage with | none => true | some s => s < 0 ∨ s > 1) then
    { valid := false, error := some "slippage is required and must be between 0 and 1" }
  else if body.tokenIn = body.tokenOut then
    { valid := false, error := some "tokenIn and tokenOut must be different" }
  else
    { valid := true }

inductive SubmitOutcome where
  | rejected (message : String)
  | created (orderId : String)
deriving DecidableEq, Repr

def SubmitOutcome.isCreated : SubmitOutcome → Bool
  | SubmitOutcome.rejected _ => false
  | SubmitOutcome.created _ => true

structure SubmitResult where
  outcome : SubmitOutcome
  store : StoreState
  enqueued : List String
deriving DecidableEq, Repr

/-- `executeOrder`: reject with HTTP 400 before any store access when
validation fails; otherwise create the `pending` order and enqueue a job whose
id equals the order id (`addOrderToQueue`). -/
def executeOrder (body : OrderSubmitBody) (newId : String) (st : StoreState)
    (now : ℕ) : SubmitResult :=
  let validation := validateOrderRequest body
  if validation.valid then
    let (order, st1) :=
      create newId (body.tokenIn.getD "") (body.tokenOut.getD "")
        (body.amount.getD 0) (body.slippage.getD 0) st now
    { outcome := SubmitOutcome.created order.id, store := st1, enqueued := [order.id] }
  else
    { outcome := SubmitOutcome.rejected (validation.error.getD ""), store := st, enqueued := [] }

/-! ### Worker (`src/queues/order-queue.ts`) -/

/-- A `broadcastStatus` event; the `data` payload and timestamp carry no
information the claims depend on and are not modelled. -/
structure StatusUpdate where
  orderId : String
  status : OrderStatus
deriving DecidableEq, Repr

structure ProcResult where
  store : StoreState
  events : List StatusUpdate
  outcome : Except String Unit
deriving Repr

/-- `processOrder`: the per-job routine. `attemptsMade` is the job's
`job.attemptsMade` (the 1-based number of the current attempt). `execFailure`
injects a transient failure of the execution step — the spec requires callers
to treat the execution interface as fallible even though the shipped simulator
always succeeds, and the repository's tests force such failures by mocking;
`execFailure = none` reproduces the shipped code exactly. A thrown error is the
`Except.error` outcome, which the queue's retry policy turns into a redelivery
while attempts remain. -/
def processOrder (orderId : String) (attemptsMade : ℕ) (rRay rMet rExec : ℚ)
    (txDraws : List (Fin 16)) (execFailure : Option String) (st : StoreState)
    (now : ℕ) : ProcResult :=
  let fetched := getById orderId st.db st.cache
  let st0 : StoreState := { db := st.db, cache := fetched.cache }
  match fetched.result with
  | none =>
    -- `throw new Error(...)` lands in the catch block: persist `failed`,
    -- broadcast it, and re-throw for the queue's retry logic.
    let msg := "Order " ++ orderId ++ " not found"
    let st1 := updateStatus orderId OrderStatus.failed
      { errorMessage := some msg, retryCount := some attemptsMade } st0 now
    { store := st1,
      events := [{ orderId := orderId, status := OrderStatus.failed }],
      outcome := Except.error msg }
  | some order =>
    let st1 := updateStatus orderId OrderStatus.routing {} st0 now
    let q := getBestQuote order.tokenIn order.tokenOut order.amount rRay rMet
    let st2 := updateStatus orderId OrderStatus.building
      { selectedDex := some q.bestQuote.dex, raydiumQuote := some q.raydiumQuote,
        meteoraQuote := some q.meteoraQuote } st1 now
    let st3 := updateStatus orderId OrderStatus.submitted {} st2 now
    match execFailure with
    | some msg =>
      let st4 := updateStatus orderId OrderStatus.failed
        { errorMessage := some msg, retryCount := some attemptsMade } st3 now
      { store := st4,
        events := [{ orderId := orderId, status := OrderStatus.routing },
                   { orderId := orderId, status := OrderStatus.building },
                   { orderId := orderId, status := OrderStatus.submitted },
                   { orderId := orderId, status := OrderStatus.failed }],
        outcome := Except.error msg }
    | none =>
      let swapResult := executeSwap
        { orderId := orderId, tokenIn := order.tokenIn, tokenOut := order.tokenOut,
          amount := order.amount, slippage := order.slippage } q.bestQuote.dex rExec txDraws
      let st4 := updateStatus orderId OrderStatus.confirmed
        { executedPrice := some swapResult.executedPrice,
          amountOut := some swapResult.amountOut,
          txHash := some swapResult.txHash } st3 now
      { store := st4,
        events := [{ orderId := orderId, status := OrderStatus.routing },
                   { orderId := orderId, status := OrderStatus.building },
                   { orderId := orderId, status := OrderStatus.submitted },
                   { orderId := orderId, status := OrderStatus.confirmed }],
        outcome := Except.ok () }

/-- Modelled from the spec: the queue's retry policy. The queue library
(BullMQ) is not part of `src/`; `src/queues/order-queue.ts` configures it with
`attempts := config.queue.maxRetries` and exponential backoff, and the spec
says a transient failure is "retried per queue policy up to the configured
maximum, then terminal" with at most one in-flight job per order. This driver
makes up to `remaining` further attempts, numbering them so that the k-th
attempt overall observes `job.attemptsMade = k`, and stops at the first
success; it returns the final store and the total number of attempts made. -/
def runAttempts (orderId : String) (execFailures : ℕ → Option String)
    (rRay rMet rExec : ℚ) (txDraws : List (Fin 16)) (now : ℕ) :
    ℕ → ℕ → StoreState → StoreState × ℕ
  | 0, made, st => (st, made)
  | remaining + 1, made, st =>
    let r := processOrder orderId (made + 1) rRay rMet rExec txDraws
      (execFailures (made + 1)) st now
    match r.outcome with
    | Except.ok _ => (r.store, made + 1)
    | Except.error _ =>
      runAttempts orderId execFailures rRay rMet rExec txDraws now remaining (made + 1) r.store

/-- The spec's state machine (§4.2): `pending → routing → building → submitted
→ confirmed`; `routing`, `building`, `submitted` may fail; `failed` re-enters
`routing` on retry. Stated from the spec's words for comparison with the
transitions the worker actually takes. -/
def specAllowedTransition : OrderStatus → OrderStatus → Bool
  | OrderStatus.pending, OrderStatus.routing => true
  | OrderStatus.routing, OrderStatus.building => true
  | OrderStatus.building, OrderStatus.submitted => true
  | OrderStatus.submitted, OrderStatus.confirmed => true
  | OrderStatus.routing, OrderStatus.failed => true
  | OrderStatus.building, OrderStatus.failed => true
  | OrderStatus.submitted, OrderStatus.failed => true
  | OrderStatus.failed, OrderStatus.routing => true
  | _, _ => false

/-- Every base price in the router's table, and the fallback, is positive. -/
theorem getBasePrice_pos (tokenIn tokenOut : String) : 0 < getBasePrice tokenIn tokenOut := by
  unfold getBasePrice
  dsimp only
  split_ifs <;> norm_num

/-! ### Association-list lemmas for the store model -/

theorem lookup_filter_ne (id : String) (l : List (String × Order)) :
    (l.filter (fun kv => kv.1 ≠ id)).lookup id = none := by
  induction l with
  | nil => rfl
  | cons kv rest ih =>
    obtain ⟨k0, v0⟩ := kv
    by_cases h : k0 = id
    · simpa [List.filter_cons, h] using ih
    · simp [List.filter_cons, h, List.lookup_cons, beq_false_of_ne (Ne.symm h), ih]
      exact fun a b _ hne hh => hne hh.symm

theorem filter_ne_of_lookup_none (id : String) (l : List (String × Order))
    (h : l.lookup id = none) : l.filter (fun kv => kv.1 ≠ id) = l := by
  induction l with
  | nil => rfl
  | cons kv rest ih =>
    obtain ⟨k0, v0⟩ := kv
    by_cases hk : id = k0
    · simp [List.lookup_cons, hk] at h
    · have hrest : rest.lookup id = none := by
        simpa [List.lookup_cons, beq_false_of_ne hk] using h
      have hcons : List.filter (fun kv => decide (kv.1 ≠ id)) ((k0, v0) :: rest)
          = (k0, v0) :: List.filter (fun kv => decide (kv.1 ≠ id)) rest := by
        rw [List.filter_cons]
        have hd : (decide ((k0, v0).1 ≠ id)) = true := by
          simp
          exact fun hh => hk hh.symm
        rw [hd]
        simp
      rw [hcons, ih hrest]

theorem map_update_of_lookup_none (id : String) (f : Order → Order)
    (l : List (String × Order)) (h : l.lookup id = none) :
    l.map (fun kv => if kv.1 = id then (kv.1, f kv.2) else kv) = l := by
  induction l with
  | nil => rfl
  | cons kv rest ih =>
    obtain ⟨k0, v0⟩ := kv
    by_cases hk : id = k0
    · simp [List.lookup_cons, hk] at h
    · have hrest : rest.lookup id = none := by
        simpa [List.lookup_cons, beq_false_of_ne hk] using h
      simp [Ne.symm hk, ih hrest]

theorem lookup_map_update (id : String) (f : Order → Order) (l : List (String × Order)) :
    (l.map (fun kv => if kv.1 = id then (kv.1, f kv.2) else kv)).lookup id =
      (l.lookup id).map f := by
  induction l with
  | nil => rfl
  | cons kv rest ih =>
    obtain ⟨k0, v0⟩ := kv
    by_cases hk : k0 = id
    · subst hk
      simp [List.lookup_cons, ih]
    · simp [List.lookup_cons, hk, beq_false_of_ne (Ne.symm hk), ih]

theorem getRaydiumQuote_output_pos (tokenIn tokenOut : String) (amount r : ℚ)
    (ha : 0 < amount) (hr : 0 ≤ r) :
    0 < (getRaydiumQuote tokenIn tokenOut amount r).estimatedOutput := by
  have hb := getBasePrice_pos tokenIn tokenOut
  unfold getRaydiumQuote applyPriceVariance
  dsimp only
  have h1 : (0:ℚ) < 98/100 + r * (104/100 - 98/100) := by nlinarith
  nlinarith [mul_pos ha (mul_pos hb h1)]

theorem getMeteorQuote_output_pos (tokenIn tokenOut : String) (amount r : ℚ)
    (ha : 0 < amount) (hr : 0 ≤ r) :
    0 < (getMeteorQuote tokenIn tokenOut amount r).estimatedOutput := by
  have hb := getBasePrice_pos tokenIn tokenOut
  unfold getMeteorQuote applyPriceVariance
  dsimp only
  have h1 : (0:ℚ) < 97/100 + r * (105/100 - 97/100) := by nlinarith
  nlinarith [mul_pos ha (mul_pos hb h1)]

theorem lookup_map_update_ne (id k : String) (f : Order → Order)
    (l : List (String × Order)) (h : k ≠ id) :
    (l.map (fun kv => if kv.1 = id then (kv.1, f kv.2) else kv)).lookup k =
      l.lookup k := by
  induction l with
  | nil => rfl
  | cons kv rest ih =>
    obtain ⟨k0, v0⟩ := kv
    by_cases hk : k0 = id
    · subst hk
      simp [List.lookup_cons, beq_false_of_ne h, ih]
    · by_cases hkk : k = k0
      · simp [List.lookup_cons, hk, hkk]
      · simp [List.lookup_cons, hk, beq_false_of_ne hkk, ih]

/-! ### Sample data shared by the witnesses -/

def uuid0 : String := "00000000-0000-0000-0000-000000000000"

def sampleOrder : Order :=
  { id := uuid0, tokenIn := "SOL", tokenOut := "USDC", amount := 1, slippage := 0,
    status := OrderStatus.pending, retryCount := 0, createdAt := 0, updatedAt := 0 }

def sampleStore : StoreState :=
  { db := [(uuid0, sampleOrder)], cache := [(uuid0, sampleOrder)] }

/-! ### Claims -/

/-- **C3.** For every pair of venue quotes produced inside `getBestQuote` (the
order amount is positive and the two random draws lie in `[0,1)`): the best
quote is the one with strictly greater `estimatedOutput`; on an exact tie the
fixed venue Meteora is selected; `priceImprovement` equals
`(best − worse)/worse × 100`, is nonnegative, and is `0` exactly on a tie; and
`best.estimatedOutput` is at least the minimum of the two outputs. -/
theorem getBestQuote_correct (tokenIn tokenOut : String) (amount rRay rMet : ℚ)
    (ha : 0 < amount) (hr0 : 0 ≤ rRay) (hr1 : rRay < 1) (hm0 : 0 ≤ rMet) (hm1 : rMet < 1) :
    ((getBestQuote tokenIn tokenOut amount rRay rMet).raydiumQuote.estimatedOutput >
        (getBestQuote tokenIn tokenOut amount rRay rMet).meteoraQuote.estimatedOutput →
      (getBestQuote tokenIn tokenOut amount rRay rMet).bestQuote =
        (getBestQuote tokenIn tokenOut amount rRay rMet).raydiumQuote) ∧
    ((getBestQuote tokenIn tokenOut amount rRay rMet).meteoraQuote.estimatedOutput >
        (getBestQuote tokenIn tokenOut amount rRay rMet).raydiumQuote.estimatedOutput →
      (getBestQuote tokenIn tokenOut amount rRay rMet).bestQuote =
        (getBestQuote tokenIn tokenOut amount rRay rMet).meteoraQuote) ∧
    ((getBestQuote tokenIn tokenOut amount rRay rMet).raydiumQuote.estimatedOutput =
        (getBestQuote tokenIn tokenOut amount rRay rMet).meteoraQuote.estimatedOutput →
      (getBestQuote tokenIn tokenOut amount rRay rMet).bestQuote =
        (getBestQuote tokenIn tokenOut amount rRay rMet).meteoraQuote) ∧
    (getBestQuote tokenIn tokenOut amount rRay rMet).priceImprovement =
      ((getBestQuote tokenIn tokenOut amount rRay rMet).bestQuote.estimatedOutput -
          min (getBestQuote tokenIn tokenOut amount rRay rMet).raydiumQuote.estimatedOutput
            (getBestQuote tokenIn tokenOut amount rRay rMet).meteoraQuote.estimatedOutput) /
        min (getBestQuote tokenIn tokenOut amount rRay rMet).raydiumQuote.estimatedOutput
          (getBestQuote tokenIn tokenOut amount rRay rMet).meteoraQuote.estimatedOutput * 100 ∧
    0 ≤ (getBestQuote tokenIn tokenOut amount rRay rMet).priceImprovement ∧
    ((getBestQuote tokenIn tokenOut amount rRay rMet).raydiumQuote.estimatedOutput =
        (getBestQuote tokenIn tokenOut amount rRay rMet).meteoraQuote.estimatedOutput →
      (getBestQuote tokenIn tokenOut amount rRay rMet).priceImprovement = 0) ∧
    min (getBestQuote tokenIn tokenOut amount rRay rMet).raydiumQuote.estimatedOutput
        (getBestQuote tokenIn tokenOut amount rRay rMet).meteoraQuote.estimatedOutput ≤
      (getBestQuote tokenIn tokenOut amount rRay rMet).bestQuote.estimatedOutput := by
  have hR : (getBestQuote tokenIn tokenOut amount rRay rMet).raydiumQuote =
      getRaydiumQuote tokenIn tokenOut amount rRay := rfl
  have hM : (getBestQuote tokenIn tokenOut amount rRay rMet).meteoraQuote =
      getMeteorQuote tokenIn tokenOut amount rMet := rfl
  have houtR := getRaydiumQuote_output_pos tokenIn tokenOut amount rRay ha hr0
  have houtM := getMeteorQuote_output_pos tokenIn tokenOut amount rMet ha hm0
  set R := getRaydiumQuote tokenIn tokenOut amount rRay with hRdef
  set M := getMeteorQuote tokenIn tokenOut amount rMet with hMdef
  have hbest : (getBestQuote tokenIn tokenOut amount rRay rMet).bestQuote =
      if R.estimatedOutput > M.estimatedOutput then R else M := rfl
  have hpi : (getBestQuote tokenIn tokenOut amount rRay rMet).priceImprovement =
      ((if R.estimatedOutput > M.estimatedOutput then R else M).estimatedOutput -
          min R.estimatedOutput M.estimatedOutput) /
        min R.estimatedOutput M.estimatedOutput * 100 := rfl
  rw [hR, hM, hbest, hpi]
  by_cases hgt : R.estimatedOutput > M.estimatedOutput
  · rw [if_pos hgt]
    have hmin : min R.estimatedOutput M.estimatedOutput = M.estimatedOutput :=
      min_eq_right hgt.le
    refine ⟨fun _ => rfl, fun h => absurd hgt (by linarith), fun h => absurd hgt (by simp [h]),
      rfl, ?_, fun h => absurd hgt (by simp [h]), ?_⟩
    · rw [hmin]
      have : 0 ≤ (R.estimatedOutput - M.estimatedOutput) / M.estimatedOutput :=
        div_nonneg (by linarith) houtM.le
      nlinarith
    · rw [hmin]; exact hgt.le
  · rw [if_neg hgt]
    have hle : R.estimatedOutput ≤ M.estimatedOutput := not_lt.mp hgt
    have hmin : min R.estimatedOutput M.estimatedOutput = R.estimatedOutput :=
      min_eq_left hle
    refine ⟨fun h => absurd h hgt, fun _ => rfl, fun _ => rfl, rfl, ?_, ?_, ?_⟩
    · rw [hmin]
      have : 0 ≤ (M.estimatedOutput - R.estimatedOutput) / R.estimatedOutput :=
        div_nonneg (by linarith) houtR.le
      nlinarith
    · intro h
      rw [hmin, h]
      simp
    · rw [hmin]; exact hle

/-- Witness for C3 at `SOL/USDC`, amount `1`, draws `0` and `0`. -/
theorem getBestQuote_correct_witness :
    0 ≤ (getBestQuote "SOL" "USDC" 1 0 0).priceImprovement ∧
    min (getBestQuote "SOL" "USDC" 1 0 0).raydiumQuote.estimatedOutput
        (getBestQuote "SOL" "USDC" 1 0 0).meteoraQuote.estimatedOutput ≤
      (getBestQuote "SOL" "USDC" 1 0 0).bestQuote.estimatedOutput :=
  ⟨(getBestQuote_correct "SOL" "USDC" 1 0 0 (by norm_num) (by norm_num) (by norm_num)
      (by norm_num) (by norm_num)).2.2.2.2.1,
   (getBestQuote_correct "SOL" "USDC" 1 0 0 (by norm_num) (by norm_num) (by norm_num)
      (by norm_num) (by norm_num)).2.2.2.2.2.2⟩

def swapOrderZeroSlip : OrderDetails :=
  { orderId := "o1", tokenIn := "SOL", tokenOut := "USDC", amount := 3/2, slippage := 0 }

def swapOrderSmallSlip : OrderDetails :=
  { orderId := "o1", tokenIn := "SOL", tokenOut := "USDC", amount := 2, slippage := 1/100 }

/-- **C4 (counterexample).** The claimed strict lower bound
`basePrice × (1 − s) < executedPrice` fails at slippage `s = 0` (allowed by the
claim's range `s ∈ [0,1)`): with `r = 1/2` the executed price equals the base
price exactly. -/
theorem executeSwap_strict_bound_counterexample :
    ¬ (getBasePrice "SOL" "USDC" * (1 - (0:ℚ)) <
        (executeSwap swapOrderZeroSlip Dex.raydium (1/2) []).executedPrice) := by
  have h : (executeSwap swapOrderZeroSlip Dex.raydium (1/2) []).executedPrice =
      getBasePrice "SOL" "USDC" * (1 - (1/2) * 0) := rfl
  rw [h]
  norm_num

/-- **C4 (amended).** For every executed swap with slippage tolerance
`s ∈ [0,1)` and random draw `r ∈ [0,1)`: the executed price equals
`basePrice × (1 − r × s)`, hence `basePrice × (1 − s) ≤ executedPrice ≤
basePrice`, with the lower bound strict whenever `s > 0`; and
`amountOut = amount × executedPrice × (1 − venueFee)`. -/
theorem executeSwap_slippage_bounds (order : OrderDetails) (selectedDex : Dex)
    (r : ℚ) (txDraws : List (Fin 16))
    (hs0 : 0 ≤ order.slippage) (hs1 : order.slippage < 1) (hr0 : 0 ≤ r) (hr1 : r < 1) :
    (executeSwap order selectedDex r txDraws).executedPrice =
      getBasePrice order.tokenIn order.tokenOut * (1 - r * order.slippage) ∧
    getBasePrice order.tokenIn order.tokenOut * (1 - order.slippage) ≤
      (executeSwap order selectedDex r txDraws).executedPrice ∧
    (executeSwap order selectedDex r txDraws).executedPrice ≤
      getBasePrice order.tokenIn order.tokenOut ∧
    (0 < order.slippage →
      getBasePrice order.tokenIn order.tokenOut * (1 - order.slippage) <
        (executeSwap order selectedDex r txDraws).executedPrice) ∧
    (executeSwap order selectedDex r txDraws).amountOut =
      order.amount * (executeSwap order selectedDex r txDraws).executedPrice *
        (1 - (if selectedDex = Dex.raydium then (3/1000 : ℚ) else 2/1000)) := by
  have hb := getBasePrice_pos order.tokenIn order.tokenOut
  have he : (executeSwap order selectedDex r txDraws).executedPrice =
      getBasePrice order.tokenIn order.tokenOut * (1 - r * order.slippage) := rfl
  refine ⟨rfl, ?_, ?_, ?_, rfl⟩
  · rw [he]
    nlinarith [mul_nonneg (mul_nonneg hb.le hs0) (sub_nonneg.mpr hr1.le)]
  · rw [he]
    nlinarith [mul_nonneg hb.le (mul_nonneg hr0 hs0)]
  · intro hs
    rw [he]
    nlinarith [mul_pos (mul_pos hb hs) (sub_pos.mpr hr1)]

/-- Witness for C4 at `SOL/USDC`, slippage `1/100`, draw `1/2`. -/
theorem executeSwap_slippage_bounds_witness :
    getBasePrice swapOrderSmallSlip.tokenIn swapOrderSmallSlip.tokenOut *
        (1 - swapOrderSmallSlip.slippage) <
      (executeSwap swapOrderSmallSlip Dex.raydium (1/2) []).executedPrice ∧
    (executeSwap swapOrderSmallSlip Dex.raydium (1/2) []).executedPrice ≤
      getBasePrice swapOrderSmallSlip.tokenIn swapOrderSmallSlip.tokenOut :=
  ⟨(executeSwap_slippage_bounds swapOrderSmallSlip Dex.raydium (1/2) []
      (by norm_num [swapOrderSmallSlip]) (by norm_num [swapOrderSmallSlip])
      (by norm_num) (by norm_num)).2.2.2.1 (by norm_num [swapOrderSmallSlip]),
   (executeSwap_slippage_bounds swapOrderSmallSlip Dex.raydium (1/2) []
      (by norm_num [swapOrderSmallSlip]) (by norm_num [swapOrderSmallSlip])
      (by norm_num) (by norm_num)).2.2.1⟩

/-- **C5.** Once `updateStatus` returns, the cache holds no entry for the id;
the update persists the new status and patch to the stored row (if present);
and the next `getById` for a well-formed id repopulates the cache from the
updated row. -/
theorem updateStatus_invalidates_cache (id : String) (status : OrderStatus)
    (patch : UpdatePatch) (st : StoreState) (now : ℕ) :
    (updateStatus id status patch st now).cache.lookup id = none ∧
    (updateStatus id status patch st now).db.lookup id =
      (st.db.lookup id).map (fun o => applyPatch o status patch now) ∧
    (∀ o, isUuid id = true →
      (updateStatus id status patch st now).db.lookup id = some o →
      getById id (updateStatus id status patch st now).db
          (updateStatus id status patch st now).cache =
        { result := some o,
          cache := (id, o) :: (updateStatus id status patch st now).cache,
          dbQueried := true }) := by
  refine ⟨lookup_filter_ne id st.cache,
    lookup_map_update id (fun o => applyPatch o status patch now) st.db, ?_⟩
  intro o hu hdb
  unfold getById
  rw [show (updateStatus id status patch st now).cache.lookup id = none from
    lookup_filter_ne id st.cache]
  rw [hu, hdb]
  simp

/-- Witness for C5: after an update, the cache entry is gone and `getById`
repopulates from the updated row. -/
theorem updateStatus_invalidates_cache_witness :
    (updateStatus uuid0 OrderStatus.routing {} sampleStore 1).cache.lookup uuid0 = none ∧
    getById uuid0 (updateStatus uuid0 OrderStatus.routing {} sampleStore 1).db
        (updateStatus uuid0 OrderStatus.routing {} sampleStore 1).cache =
      { result := some (applyPatch sampleOrder OrderStatus.routing {} 1),
        cache := (uuid0, applyPatch sampleOrder OrderStatus.routing {} 1) ::
          (updateStatus uuid0 OrderStatus.routing {} sampleStore 1).cache,
        dbQueried := true } :=
  ⟨(updateStatus_invalidates_cache uuid0 OrderStatus.routing {} sampleStore 1).1,
   (updateStatus_invalidates_cache uuid0 OrderStatus.routing {} sampleStore 1).2.2
     (applyPatch sampleOrder OrderStatus.routing {} 1) (by decide) (by rfl)⟩

/-- **C8.** `getById` returns the cached value immediately on a cache hit; on a
miss it rejects a malformed (non-UUID) id without querying durable storage; and
for a well-formed id with no stored record it returns absent as a normal
result (`result = none`, never an exception). -/
theorem getById_read_path (id : String) (db cache : List (String × Order)) :
    (∀ v, cache.lookup id = some v →
      getById id db cache = { result := some v, cache := cache, dbQueried := false }) ∧
    (cache.lookup id = none → isUuid id = false →
      getById id db cache = { result := none, cache := cache, dbQueried := false }) ∧
    (cache.lookup id = none → isUuid id = true → db.lookup id = none →
      getById id db cache = { result := none, cache := cache, dbQueried := true }) := by
  refine ⟨?_, ?_, ?_⟩
  · intro v hv
    unfold getById
    rw [hv]
  · intro hc hu
    unfold getById
    rw [hc, hu]
    simp
  · intro hc hu hdb
    unfold getById
    rw [hc, hu, hdb]
    simp

/-- Witness for C8: one concrete instance of each of the three read paths. -/
theorem getById_read_path_witness :
    getById "k1" [] [("k1", sampleOrder)] =
      { result := some sampleOrder, cache := [("k1", sampleOrder)], dbQueried := false } ∧
    getById "not-a-uuid" [] [] = { result := none, cache := [], dbQueried := false } ∧
    getById uuid0 [] [] = { result := none, cache := [], dbQueried := true } :=
  ⟨(getById_read_path "k1" [] [("k1", sampleOrder)]).1 sampleOrder rfl,
   (getById_read_path "not-a-uuid" [] []).2.1 rfl (by decide),
   (getById_read_path uuid0 [] []).2.2 rfl (by decide) rfl⟩

/-- **C9.** On a cache hit, `getById` returns the parsed cached value with no
id-shape validation and no durable-storage access — in particular for a
malformed (non-UUID) id whose key is cached. -/
theorem getById_cache_hit_bypasses_validation (id : String)
    (db cache : List (String × Order)) (v : Order) (h : cache.lookup id = some v) :
    getById id db cache = { result := some v, cache := cache, dbQueried := false } := by
  unfold getById
  rw [h]

/-- Witness for C9: a malformed id with a cached entry still yields the cached
order, with no durable-storage query. -/
theorem getById_cache_hit_bypasses_validation_witness :
    isUuid "not-a-uuid" = false ∧
    getById "not-a-uuid" [] [("not-a-uuid", sampleOrder)] =
      { result := some sampleOrder, cache := [("not-a-uuid", sampleOrder)],
        dbQueried := false } :=
  ⟨by decide,
   getById_cache_hit_bypasses_validation "not-a-uuid" [] [("not-a-uuid", sampleOrder)]
     sampleOrder rfl⟩

/-- **C10.** `updateStatus` writes `status` and `updated_at` always, the
truthy string/object patch fields (`selectedDex`, `raydiumQuote`,
`meteoraQuote`, `txHash`, `errorMessage` — the last two only when non-empty)
and the defined numeric fields (`executedPrice`, `amountOut`, `retryCount`);
every other column of the record is unchanged. In particular a patch carrying
`errorMessage = ""` (or `txHash = ""`) leaves the stored value unmodified, and
rows of other ids are untouched. -/
theorem applyPatch_frame (o : Order) (status : OrderStatus) (p : UpdatePatch) (now : ℕ) :
    (applyPatch o status p now).status = status ∧
    (applyPatch o status p now).updatedAt = now ∧
    (p.errorMessage = some "" → (applyPatch o status p now).errorMessage = o.errorMessage) ∧
    (p.txHash = some "" → (applyPatch o status p now).txHash = o.txHash) ∧
    (∀ n, p.retryCount = some n → (applyPatch o status p now).retryCount = n) ∧
    (p.retryCount = none → (applyPatch o status p now).retryCount = o.retryCount) ∧
    (applyPatch o status p now).id = o.id ∧
    (applyPatch o status p now).tokenIn = o.tokenIn ∧
    (applyPatch o status p now).tokenOut = o.tokenOut ∧
    (applyPatch o status p now).amount = o.amount ∧
    (applyPatch o status p now).slippage = o.slippage ∧
    (applyPatch o status p now).createdAt = o.createdAt ∧
    (p.selectedDex = none → (applyPatch o status p now).selectedDex = o.selectedDex) ∧
    (∀ d, p.selectedDex = some d → (applyPatch o status p now).selectedDex = some d) ∧
    (p.raydiumQuote = none → (applyPatch o status p now).raydiumQuote = o.raydiumQuote) ∧
    (∀ q, p.raydiumQuote = some q → (applyPatch o status p now).raydiumQuote = some q) ∧
    (p.meteoraQuote = none → (applyPatch o status p now).meteoraQuote = o.meteoraQuote) ∧
    (∀ q, p.meteoraQuote = some q → (applyPatch o status p now).meteoraQuote = some q) ∧
    (p.executedPrice = none → (applyPatch o status p now).executedPrice = o.executedPrice) ∧
    (∀ x, p.executedPrice = some x → (applyPatch o status p now).executedPrice = some x) ∧
    (p.amountOut = none → (applyPatch o status p now).amountOut = o.amountOut) ∧
    (∀ x, p.amountOut = some x → (applyPatch o status p now).amountOut = some x) ∧
    (p.txHash = none → (applyPatch o status p now).txHash = o.txHash) ∧
    (∀ h, p.txHash = some h → h ≠ "" → (applyPatch o status p now).txHash = some h) ∧
    (p.errorMessage = none → (applyPatch o status p now).errorMessage = o.errorMessage) ∧
    (∀ m, p.errorMessage = some m → m ≠ "" →
      (applyPatch o status p now).errorMessage = some m) ∧
    (∀ (st : StoreState) (rowId k : String), k ≠ rowId →
      (updateStatus rowId status p st now).db.lookup k = st.db.lookup k) := by
  refine ⟨rfl, rfl, ?_, ?_, ?_, ?_, rfl, rfl, rfl, rfl, rfl, rfl, ?_, ?_, ?_, ?_, ?_, ?_,
    ?_, ?_, ?_, ?_, ?_, ?_, ?_, ?_, ?_⟩
  · intro h
    simp [applyPatch, h]
  · intro h
    simp [applyPatch, h]
  · intro n h
    simp [applyPatch, h]
  · intro h
    simp [applyPatch, h]
  · intro h
    simp [applyPatch, h]
  · intro d h
    simp [applyPatch, h]
  · intro h
    simp [applyPatch, h]
  · intro q h
    simp [applyPatch, h]
  · intro h
    simp [applyPatch, h]
  · intro q h
    simp [applyPatch, h]
  · intro h
    simp [applyPatch, h]
  · intro x h
    simp [applyPatch, h]
  · intro h
    simp [applyPatch, h]
  · intro x h
    simp [applyPatch, h]
  · intro h
    simp [applyPatch, h]
  · intro h2 h hne
    simp [applyPatch, h, hne]
  · intro h
    simp [applyPatch, h]
  · intro m h hne
    simp [applyPatch, h, hne]
  · intro st rowId k hk
    exact lookup_map_update_ne rowId k (fun x => applyPatch x status p now) st.db hk

/-- Witness for C10: a patch with `errorMessage = ""` and `retryCount = 2`
leaves the stored error message unchanged while writing status and
retryCount. -/
theorem applyPatch_frame_witness :
    ({ errorMessage := some "", retryCount := some 2 } : UpdatePatch).errorMessage =
      some "" ∧
    (applyPatch sampleOrder OrderStatus.failed
        { errorMessage := some "", retryCount := some 2 } 7).errorMessage =
      sampleOrder.errorMessage ∧
    (applyPatch sampleOrder OrderStatus.failed
        { errorMessage := some "", retryCount := some 2 } 7).status = OrderStatus.failed ∧
    (applyPatch sampleOrder OrderStatus.failed
        { errorMessage := some "", retryCount := some 2 } 7).retryCount = 2 := by
  have hh := applyPatch_frame sampleOrder OrderStatus.failed
    { errorMessage := some "", retryCount := some 2 } 7
  exact ⟨rfl, hh.2.2.1 rfl, hh.1, hh.2.2.2.2.1 2 rfl⟩

/-- **C1 (counterexample).** For a dequeued job whose order id has no stored
record, the claim says no failed event is broadcast and the job is not
retried; but the processing routine's catch block broadcasts a `failed` event
and re-throws, so the queue's retry policy redelivers the job. -/
theorem processOrder_missing_counterexample :
    (processOrder uuid0 1 0 0 0 [] none { db := [], cache := [] } 0).events =
      [{ orderId := uuid0, status := OrderStatus.failed }] ∧
    (processOrder uuid0 1 0 0 0 [] none { db := [], cache := [] } 0).outcome =
      Except.error ("Order " ++ uuid0 ++ " not found") :=
  ⟨rfl, rfl⟩

/-- **C1 (amended).** For every dequeued job whose order id has no order record
(neither stored nor cached), the routine performs no state mutation — the
`failed` UPDATE matches no row and the cache delete removes nothing, so the
store is returned unchanged — but it does broadcast one `failed` event and
re-raises the not-found error, so the queue's retry policy governs
redelivery. -/
theorem processOrder_missing_order (orderId : String) (attemptsMade : ℕ)
    (rRay rMet rExec : ℚ) (txDraws : List (Fin 16)) (execFailure : Option String)
    (st : StoreState) (now : ℕ)
    (hdb : st.db.lookup orderId = none) (hcache : st.cache.lookup orderId = none) :
    processOrder orderId attemptsMade rRay rMet rExec txDraws execFailure st now =
      { store := st,
        events := [{ orderId := orderId, status := OrderStatus.failed }],
        outcome := Except.error ("Order " ++ orderId ++ " not found") } := by
  have hfetch : getById orderId st.db st.cache =
      { result := none, cache := st.cache, dbQueried := isUuid orderId } := by
    unfold getById
    rw [hcache]
    by_cases hu : isUuid orderId
    · rw [hu, hdb]
      simp
    · rw [Bool.not_eq_true] at hu
      rw [hu]
      simp
  have hupd : updateStatus orderId OrderStatus.failed
      { errorMessage := some ("Order " ++ orderId ++ " not found"),
        retryCount := some attemptsMade } st now = st := by
    unfold updateStatus
    rw [map_update_of_lookup_none orderId
        (fun o => applyPatch o OrderStatus.failed
          { errorMessage := some ("Order " ++ orderId ++ " not found"),
            retryCount := some attemptsMade } now) st.db hdb,
      filter_ne_of_lookup_none orderId st.cache hcache]
  unfold processOrder
  rw [hfetch]
  dsimp only
  rw [hupd]

/-- Witness for C1 (amended) on an empty store. -/
theorem processOrder_missing_order_witness :
    processOrder uuid0 2 0 0 0 [] none { db := [], cache := [] } 3 =
      { store := { db := [], cache := [] },
        events := [{ orderId := uuid0, status := OrderStatus.failed }],
        outcome := Except.error ("Order " ++ uuid0 ++ " not found") } :=
  processOrder_missing_order uuid0 2 0 0 0 [] none { db := [], cache := [] } 3 rfl rfl

/-- **C6.** For every order that completes successfully, the sequence of
statuses it passes through (starting from its created `pending` state, then the
broadcast transitions) is exactly
`[pending, routing, building, submitted, confirmed]`, with every consecutive
transition permitted by the spec's state machine, every event addressed to the
order, and a successful job outcome. -/
theorem processOrder_success_trace (orderId : String) (attemptsMade : ℕ)
    (rRay rMet rExec : ℚ) (txDraws : List (Fin 16)) (st : StoreState) (now : ℕ)
    (o : Order) (hfetch : (getById orderId st.db st.cache).result = some o)
    (hpending : o.status = OrderStatus.pending) :
    o.status ::
        (processOrder orderId attemptsMade rRay rMet rExec txDraws none st now).events.map
          StatusUpdate.status =
      [OrderStatus.pending, OrderStatus.routing, OrderStatus.building,
        OrderStatus.submitted, OrderStatus.confirmed] ∧
    List.Chain' (fun a b => specAllowedTransition a b = true)
      (o.status ::
        (processOrder orderId attemptsMade rRay rMet rExec txDraws none st now).events.map
          StatusUpdate.status) ∧
    (processOrder orderId attemptsMade rRay rMet rExec txDraws none st now).events.map
        StatusUpdate.orderId = [orderId, orderId, orderId, orderId] ∧
    (processOrder orderId attemptsMade rRay rMet rExec txDraws none st now).outcome =
      Except.ok () := by
  rcases hg : getById orderId st.db st.cache with ⟨res, c, b⟩
  rw [hg] at hfetch
  dsimp only at hfetch
  subst hfetch
  have hev : (processOrder orderId attemptsMade rRay rMet rExec txDraws none st now).events =
      [{ orderId := orderId, status := OrderStatus.routing },
       { orderId := orderId, status := OrderStatus.building },
       { orderId := orderId, status := OrderStatus.submitted },
       { orderId := orderId, status := OrderStatus.confirmed }] := by
    unfold processOrder
    rw [hg]
  have hout : (processOrder orderId attemptsMade rRay rMet rExec txDraws none st now).outcome =
      Except.ok () := by
    unfold processOrder
    rw [hg]
  rw [hev, hpending]
  refine ⟨rfl, ?_, rfl, hout⟩
  dsimp only [List.map_cons, List.map_nil]
  simp only [List.chain'_cons]
  refine ⟨rfl, rfl, rfl, rfl, List.chain'_singleton _⟩

/-- Witness for C6 on a store holding one pending order. -/
theorem processOrder_success_trace_witness :
    sampleOrder.status ::
        (processOrder uuid0 1 0 0 0 [] none sampleStore 5).events.map StatusUpdate.status =
      [OrderStatus.pending, OrderStatus.routing, OrderStatus.building,
        OrderStatus.submitted, OrderStatus.confirmed] ∧
    (processOrder uuid0 1 0 0 0 [] none sampleStore 5).outcome = Except.ok () :=
  ⟨(processOrder_success_trace uuid0 1 0 0 0 [] sampleStore 5 sampleOrder rfl rfl).1,
   (processOrder_success_trace uuid0 1 0 0 0 [] sampleStore 5 sampleOrder rfl rfl).2.2.2⟩

/-- Characterization of `validateOrderRequest`: a request passes exactly when
both tokens are present non-empty strings, the amount is a positive number,
the slippage is a number in `[0,1]` (the source check is
`slippage < 0 || slippage > 1`, so `1` passes), and the tokens differ. -/
theorem validateOrderRequest_valid_iff (body : OrderSubmitBody) :
    (validateOrderRequest body).valid = true ↔
      ((∃ tIn, body.tokenIn = some tIn ∧ tIn ≠ "") ∧
       (∃ tOut, body.tokenOut = some tOut ∧ tOut ≠ "") ∧
       (∃ a, body.amount = some a ∧ 0 < a) ∧
       (∃ sl, body.slippage = some sl ∧ 0 ≤ sl ∧ sl ≤ 1) ∧
       body.tokenIn ≠ body.tokenOut) := by
  rcases body with ⟨tIn, tOut, a, sl⟩
  rcases tIn with _ | tIn <;> rcases tOut with _ | tOut <;>
    rcases a with _ | a <;> rcases sl with _ | sl <;>
      simp [validateOrderRequest] <;> split_ifs <;> simp_all
  all_goals intros
  all_goals (rcases ‹sl < 0 ∨ 1 < sl› with h | h <;> linarith)

theorem executeOrder_validation (body : OrderSubmitBody) (newId : String)
    (st : StoreState) (now : ℕ) :
    ((executeOrder body newId st now).outcome.isCreated = true ↔
      ((∃ tIn, body.tokenIn = some tIn ∧ tIn ≠ "") ∧
       (∃ tOut, body.tokenOut = some tOut ∧ tOut ≠ "") ∧
       (∃ a, body.amount = some a ∧ 0 < a) ∧
       (∃ sl, body.slippage = some sl ∧ 0 ≤ sl ∧ sl ≤ 1) ∧
       body.tokenIn ≠ body.tokenOut)) ∧
    ((executeOrder body newId st now).outcome.isCreated = false →
      (executeOrder body newId st now).store = st ∧
      (executeOrder body newId st now).enqueued = []) ∧
    ((executeOrder body newId st now).outcome.isCreated = true →
      (∃ o, (executeOrder body newId st now).store.db.lookup newId = some o ∧
        o.status = OrderStatus.pending ∧ o.retryCount = 0 ∧ o.id = newId) ∧
      (executeOrder body newId st now).enqueued = [newId]) := by
  by_cases hv : (validateOrderRequest body).valid = true
  · have ho : (executeOrder body newId st now).outcome = SubmitOutcome.created newId := by
      unfold executeOrder
      dsimp only
      rw [if_pos hv]
      rfl
    have hdb2 : (executeOrder body newId st now).store.db =
        (newId, (create newId (body.tokenIn.getD "") (body.tokenOut.getD "")
          (body.amount.getD 0) (body.slippage.getD 0) st now).1) :: st.db := by
      unfold executeOrder
      dsimp only
      rw [if_pos hv]
      rfl
    have henq : (executeOrder body newId st now).enqueued = [newId] := by
      unfold executeOrder
      dsimp only
      rw [if_pos hv]
      rfl
    refine ⟨?_, ?_, ?_⟩
    · rw [ho]
      exact iff_of_true rfl ((validateOrderRequest_valid_iff body).mp hv)
    · rw [ho]
      intro h
      simp [SubmitOutcome.isCreated] at h
    · intro _
      refine ⟨⟨(create newId (body.tokenIn.getD "") (body.tokenOut.getD "")
          (body.amount.getD 0) (body.slippage.getD 0) st now).1, ?_, rfl, rfl, rfl⟩, henq⟩
      rw [hdb2]
      simp [List.lookup_cons]
  · have ho : (executeOrder body newId st now).outcome =
        SubmitOutcome.rejected ((validateOrderRequest body).error.getD "") := by
      unfold executeOrder
      dsimp only
      rw [if_neg hv]
    have hstore : (executeOrder body newId st now).store = st := by
      unfold executeOrder
      dsimp only
      rw [if_neg hv]
    have henq : (executeOrder body newId st now).enqueued = [] := by
      unfold executeOrder
      dsimp only
      rw [if_neg hv]
    refine ⟨?_, ?_, ?_⟩
    · rw [ho]
      refine iff_of_false (by simp [SubmitOutcome.isCreated]) ?_
      exact fun hc => hv ((validateOrderRequest_valid_iff body).mpr hc)
    · intro _
      exact ⟨hstore, henq⟩
    · rw [ho]
      intro h
      simp [SubmitOutcome.isCreated] at h

def bodySlippageOne : OrderSubmitBody :=
  { tokenIn := some "SOL", tokenOut := some "USDC", amount := some 2, slippage := some 1 }

def bodyValidSample : OrderSubmitBody :=
  { tokenIn := some "SOL", tokenOut := some "USDC", amount := some 2, slippage := some (1/100) }

def bodySameTokens : OrderSubmitBody :=
  { tokenIn := some "SOL", tokenOut := some "SOL", amount := some 1, slippage := some 0 }

/-- **C2 (counterexample).** A submission with `slippage = 1` is accepted by
the validator and creates an order, although the claim says every slippage
outside `[0,1)` — in particular `1` — is rejected before any order exists. -/
theorem executeOrder_slippage_one_counterexample :
    (validateOrderRequest bodySlippageOne).valid = true ∧
    (executeOrder bodySlippageOne uuid0 { db := [], cache := [] } 0).outcome =
      SubmitOutcome.created uuid0 := by
  constructor
  · decide
  · have hv : (validateOrderRequest bodySlippageOne).valid = true := by decide
    unfold executeOrder
    dsimp only
    rw [if_pos hv]
    rfl

/-- Witness for C2 (amended): a valid body creates a pending order and
enqueues it; a body with equal tokens is rejected leaving the store
untouched. -/
theorem executeOrder_validation_witness :
    (executeOrder bodyValidSample uuid0 { db := [], cache := [] } 0).outcome.isCreated =
      true ∧
    ((∃ o, (executeOrder bodyValidSample uuid0
          { db := [], cache := [] } 0).store.db.lookup uuid0 = some o ∧
        o.status = OrderStatus.pending ∧ o.retryCount = 0 ∧ o.id = uuid0) ∧
      (executeOrder bodyValidSample uuid0 { db := [], cache := [] } 0).enqueued =
        [uuid0]) ∧
    (executeOrder bodySameTokens "x" { db := [], cache := [] } 0).store =
      { db := [], cache := [] } := by
  have h1 := executeOrder_validation bodyValidSample uuid0 { db := [], cache := [] } 0
  have h2 := executeOrder_validation bodySameTokens "x" { db := [], cache := [] } 0
  have hc : (executeOrder bodyValidSample uuid0
      { db := [], cache := [] } 0).outcome.isCreated = true := by
    refine h1.1.mpr ⟨⟨"SOL", rfl, by decide⟩, ⟨"USDC", rfl, by decide⟩,
      ⟨2, rfl, by norm_num⟩, ⟨1/100, rfl, by norm_num, by norm_num⟩, by decide⟩
  have hnc : (executeOrder bodySameTokens "x"
      { db := [], cache := [] } 0).outcome.isCreated = false := by
    rw [Bool.eq_false_iff]
    intro hcontra
    rcases (h2.1.mp hcontra) with ⟨_, _, _, _, hne⟩
    exact hne rfl
  exact ⟨hc, h1.2.2 hc, (h2.2.1 hnc).1⟩

/-! ### C7: retry accounting under the queue policy -/

theorem updateStatus_db_lookup (id : String) (status : OrderStatus) (patch : UpdatePatch)
    (st : StoreState) (now : ℕ) :
    (updateStatus id status patch st now).db.lookup id =
      (st.db.lookup id).map (fun o => applyPatch o status patch now) :=
  lookup_map_update id (fun o => applyPatch o status patch now) st.db

theorem processOrder_fail_step (orderId : String) (attemptsMade : ℕ)
    (rRay rMet rExec : ℚ) (txDraws : List (Fin 16)) (msg : String)
    (st : StoreState) (now : ℕ) (odb : Order)
    (hu : isUuid orderId = true) (hdb : st.db.lookup orderId = some odb) :
    (processOrder orderId attemptsMade rRay rMet rExec txDraws (some msg) st now).outcome =
      Except.error msg ∧
    ∃ o2, (processOrder orderId attemptsMade rRay rMet rExec txDraws
        (some msg) st now).store.db.lookup orderId = some o2 ∧
      o2.status = OrderStatus.failed ∧ o2.retryCount = attemptsMade := by
  obtain ⟨ofetched, hfetch⟩ : ∃ x, (getById orderId st.db st.cache).result = some x := by
    rcases hc : st.cache.lookup orderId with _ | c
    · exact ⟨odb, by simp [getById, hc, hu, hdb]⟩
    · exact ⟨c, by simp [getById, hc]⟩
  rcases hg : getById orderId st.db st.cache with ⟨res, cc, bb⟩
  rw [hg] at hfetch
  dsimp only at hfetch
  subst hfetch
  constructor
  · unfold processOrder
    rw [hg]
  · unfold processOrder
    rw [hg]
    dsimp only
    rw [updateStatus_db_lookup, updateStatus_db_lookup, updateStatus_db_lookup,
      updateStatus_db_lookup]
    dsimp only
    rw [hdb]
    exact ⟨_, rfl, rfl, rfl⟩

theorem updateStatus_db_bound (id : String) (status : OrderStatus) (patch : UpdatePatch)
    (st : StoreState) (now : ℕ) (B : ℕ)
    (hp : patch.retryCount = none ∨ ∃ n, patch.retryCount = some n ∧ n ≤ B)
    (h : ∀ kv ∈ st.db, kv.2.retryCount ≤ B) :
    ∀ kv ∈ (updateStatus id status patch st now).db, kv.2.retryCount ≤ B := by
  intro kv hkv
  unfold updateStatus at hkv
  dsimp only at hkv
  rcases List.mem_map.mp hkv with ⟨kv0, hkv0, hkveq⟩
  by_cases hk : kv0.1 = id
  · rw [if_pos hk] at hkveq
    subst hkveq
    rcases hp with hnone | ⟨n, hn, hnB⟩
    · simp only [applyPatch, hnone]
      exact h kv0 hkv0
    · simp only [applyPatch, hn]
      exact hnB
  · rw [if_neg hk] at hkveq
    subst hkveq
    exact h kv0 hkv0

theorem processOrder_db_bound (orderId : String) (attemptsMade : ℕ)
    (rRay rMet rExec : ℚ) (txDraws : List (Fin 16)) (execFailure : Option String)
    (st : StoreState) (now : ℕ) (B : ℕ)
    (hB : attemptsMade ≤ B) (h : ∀ kv ∈ st.db, kv.2.retryCount ≤ B) :
    ∀ kv ∈ (processOrder orderId attemptsMade rRay rMet rExec txDraws
        execFailure st now).store.db, kv.2.retryCount ≤ B := by
  rcases hg : getById orderId st.db st.cache with ⟨res, cc, bb⟩
  rcases res with _ | o
  · unfold processOrder
    rw [hg]
    dsimp only
    exact updateStatus_db_bound _ _ _ _ _ _ (Or.inr ⟨attemptsMade, rfl, hB⟩) h
  · rcases execFailure with _ | msg
    · unfold processOrder
      rw [hg]
      dsimp only
      apply updateStatus_db_bound _ _ _ _ _ _ (Or.inl rfl)
      apply updateStatus_db_bound _ _ _ _ _ _ (Or.inl rfl)
      apply updateStatus_db_bound _ _ _ _ _ _ (Or.inl rfl)
      exact updateStatus_db_bound _ _ _ _ _ _ (Or.inl rfl) h
    · unfold processOrder
      rw [hg]
      dsimp only
      apply updateStatus_db_bound _ _ _ _ _ _ (Or.inr ⟨attemptsMade, rfl, hB⟩)
      apply updateStatus_db_bound _ _ _ _ _ _ (Or.inl rfl)
      apply updateStatus_db_bound _ _ _ _ _ _ (Or.inl rfl)
      exact updateStatus_db_bound _ _ _ _ _ _ (Or.inl rfl) h

theorem runAttempts_db_bound (orderId : String) (execFailures : ℕ → Option String)
    (rRay rMet rExec : ℚ) (txDraws : List (Fin 16)) (now maxR : ℕ) :
    ∀ (k made : ℕ) (st : StoreState), made + k ≤ maxR →
      (∀ kv ∈ st.db, kv.2.retryCount ≤ maxR) →
      ∀ kv ∈ (runAttempts orderId execFailures rRay rMet rExec txDraws
          now k made st).1.db, kv.2.retryCount ≤ maxR := by
  intro k
  induction k with
  | zero =>
    intro made st hle h
    simpa [runAttempts] using h
  | succ k ih =>
    intro made st hle h
    rcases hout : (processOrder orderId (made + 1) rRay rMet rExec txDraws
        (execFailures (made + 1)) st now).outcome with e | u
    · simp only [runAttempts, hout]
      exact ih (made + 1) _ (by omega)
        (processOrder_db_bound orderId (made + 1) rRay rMet rExec txDraws
          (execFailures (made + 1)) st now maxR (by omega) h)
    · simp only [runAttempts, hout]
      exact processOrder_db_bound orderId (made + 1) rRay rMet rExec txDraws
        (execFailures (made + 1)) st now maxR (by omega) h

theorem runAttempts_all_fail (orderId : String) (msg : String)
    (rRay rMet rExec : ℚ) (txDraws : List (Fin 16)) (now : ℕ)
    (hu : isUuid orderId = true) :
    ∀ (k made : ℕ) (st : StoreState) (odb : Order),
      st.db.lookup orderId = some odb → 1 ≤ k →
      (runAttempts orderId (fun _ => some msg) rRay rMet rExec txDraws
          now k made st).2 = made + k ∧
      ∃ o2, (runAttempts orderId (fun _ => some msg) rRay rMet rExec txDraws
          now k made st).1.db.lookup orderId = some o2 ∧
        o2.status = OrderStatus.failed ∧ o2.retryCount = made + k := by
  intro k
  induction k with
  | zero =>
    intro made st odb hdb hk
    exact absurd hk (by omega)
  | succ k ih =>
    intro made st odb hdb hk
    obtain ⟨hout, o2, ho2, ho2s, ho2r⟩ := processOrder_fail_step orderId (made + 1)
      rRay rMet rExec txDraws msg st now odb hu hdb
    rcases Nat.eq_zero_or_pos k with hk0 | hkpos
    · subst hk0
      simp only [runAttempts, hout]
      exact ⟨trivial, o2, ho2, ho2s, ho2r⟩
    · have hrec := ih (made + 1)
        (processOrder orderId (made + 1) rRay rMet rExec txDraws (some msg) st now).store
        o2 ho2 hkpos
      simp only [runAttempts, hout]
      refine ⟨?_, ?_⟩
      · rw [hrec.1]
        omega
      · obtain ⟨o3, h3, h3s, h3r⟩ := hrec.2
        exact ⟨o3, h3, h3s, by omega⟩

/-- **C7.** Under the spec-modelled queue retry policy (`runAttempts`, at most
`maxRetries` attempts total): the persisted `retryCount` of every stored order
never exceeds `maxRetries`; and an order present in storage that suffers
`maxRetries` consecutive transient failures ends with status `failed` and
`retryCount = maxRetries`, the driver having made exactly `maxRetries`
attempts and none after. -/
theorem retryCount_never_exceeds_max :
    (∀ (orderId : String) (execFailures : ℕ → Option String) (rRay rMet rExec : ℚ)
        (txDraws : List (Fin 16)) (now maxRetries : ℕ) (st : StoreState),
      (∀ kv ∈ st.db, kv.2.retryCount ≤ maxRetries) →
      ∀ kv ∈ (runAttempts orderId execFailures rRay rMet rExec txDraws
          now maxRetries 0 st).1.db, kv.2.retryCount ≤ maxRetries) ∧
    (∀ (orderId msg : String) (rRay rMet rExec : ℚ) (txDraws : List (Fin 16))
        (now maxRetries : ℕ) (st : StoreState) (odb : Order),
      isUuid orderId = true → st.db.lookup orderId = some odb → 1 ≤ maxRetries →
      (runAttempts orderId (fun _ => some msg) rRay rMet rExec txDraws
          now maxRetries 0 st).2 = maxRetries ∧
      ∃ o2, (runAttempts orderId (fun _ => some msg) rRay rMet rExec txDraws
          now maxRetries 0 st).1.db.lookup orderId = some o2 ∧
        o2.status = OrderStatus.failed ∧ o2.retryCount = maxRetries) := by
  constructor
  · intro orderId execFailures rRay rMet rExec txDraws now maxRetries st h
    exact runAttempts_db_bound orderId execFailures rRay rMet rExec txDraws now maxRetries
      maxRetries 0 st (by omega) h
  · intro orderId msg rRay rMet rExec txDraws now maxRetries st odb hu hdb hmax
    have h := runAttempts_all_fail orderId msg rRay rMet rExec txDraws now hu
      maxRetries 0 st odb hdb hmax
    simpa using h

/-- Witness for C7: three consecutive forced failures on a one-order store end
with the order `failed` at `retryCount = 3` after exactly 3 attempts. -/
theorem retryCount_never_exceeds_max_witness :
    (runAttempts uuid0 (fun _ => some "boom") 0 0 0 [] 9 3 0 sampleStore).2 = 3 ∧
    (∃ o2, (runAttempts uuid0 (fun _ => some "boom") 0 0 0 [] 9 3 0
        sampleStore).1.db.lookup uuid0 = some o2 ∧
      o2.status = OrderStatus.failed ∧ o2.retryCount = 3) := by
  have h := retryCount_never_exceeds_max.2 uuid0 "boom" 0 0 0 [] 9 3 sampleStore
    sampleOrder (by decide) (by rfl) (by omega)
  exact ⟨h.1, h.2⟩
